import Mathlib

/-!
Shallow embedding of `wandb/fastai/__init__.py` (the `WandbCallback` class),
together with the pieces of its behaviour specified for the surrounding
framework.  Metric values are modelled as rationals; Python `float('inf')` /
`float('-inf')` become explicit constructors of `EVal`.  Side effects (file
writes, log emissions, the process-wide watch flag) are made explicit as
returned effect records and threaded state.
-/

namespace WandbFastai

/-- Extended metric values: finite rationals plus the two infinities used by
the tracker (`float('inf')` / `float('-inf')`). -/
inductive EVal where
  | ninf : EVal
  | fin : ℚ → EVal
  | pinf : EVal
deriving DecidableEq, Repr

/-- Strict `<` on extended values, matching IEEE comparison of finite floats
and infinities (no NaN is modelled). -/
def EVal.ltb : EVal → EVal → Bool
  | _, .ninf => false
  | .ninf, _ => true
  | .pinf, _ => false
  | .fin _, .pinf => true
  | .fin a, .fin b => decide (a < b)

/-- The comparison operator stored by the tracker: `np.less` or `np.greater`. -/
inductive CmpOp where
  | less : CmpOp
  | greater : CmpOp
deriving DecidableEq, Repr

/-- `self.operator(current, best)`: strict comparison in the resolved
direction. -/
def CmpOp.apply : CmpOp → EVal → EVal → Bool
  | .less, a, b => EVal.ltb a b
  | .greater, a, b => EVal.ltb b a

/-- The `mode` argument: `"auto"`, `"min"` or `"max"`. -/
inductive Mode where
  | auto : Mode
  | min : Mode
  | max : Mode
deriving DecidableEq, Repr

/-- Whether `needle` occurs at the start of `hay` (character lists). -/
def charStarts : List Char → List Char → Bool
  | [], _ => true
  | _ :: _, [] => false
  | n :: ns, h :: hs => n == h && charStarts ns hs

/-- Whether `needle` occurs as a contiguous substring of `hay`
(character lists), like Python's `needle in hay`. -/
def charSubstr (needle : List Char) : List Char → Bool
  | [] => needle.isEmpty
  | h :: t => charStarts needle (h :: t) || charSubstr needle t

/-- Python's `sub in s` on strings. -/
def strContainsSub (s sub : String) : Bool :=
  charSubstr sub.toList s.toList

/-- Modelled from the spec: the fastai `TrackerCallback` base class (not part
of this repository's sources) resolves the comparison mode — `"auto"` infers
`min` (i.e. `np.less`) when the monitored metric name contains the substring
`"loss"` or `"error"`, else `max` (`np.greater`); an explicit mode is used
directly. -/
def resolveOperator (monitor : String) : Mode → CmpOp
  | .min => .less
  | .max => .greater
  | .auto =>
      if strContainsSub monitor "loss" || strContainsSub monitor "error" then
        .less
      else
        .greater

/-- One item of the validation dataset: an opaque input identifier paired with
its ground-truth label. -/
structure Sample where
  x : Nat
  y : Nat
deriving DecidableEq, Repr, Inhabited

/-- Result of `learn.predict(x)`: predicted label (`pred[0]`) and whether
`pred[1]` is scalar-shaped (`not pred[1].shape`). -/
structure PredResult where
  label : Nat
  scalarShaped : Bool
deriving DecidableEq, Repr

/-- The slice of the fastai `Learner` the callback reads: the validation
dataset, the recorder's metric-name sequence, and the inference function. -/
structure Learner where
  valid_ds : List Sample
  recorder_names : List String
  predict : Nat → PredResult

/-- The active wandb run: the callback only reads its writable directory. -/
structure Run where
  dir : String
deriving DecidableEq, Repr

/-- Error taxonomy of the observer's construction: the spec's
`PreconditionError` (raised by `WandbCallback.__init__` as a `ValueError`
when `wandb.run is None`). -/
inductive Err where
  | preconditionError : String → Err
deriving DecidableEq, Repr

/-- Python truthiness of the optional `data_type` string argument
(`None` and `""` are falsy). -/
def pyTruthyStr : Option String → Bool
  | none => false
  | some s => !s.isEmpty

/-- Python truthiness of the optional `validation_data` list argument
(`None` and `[]` are falsy). -/
def pyTruthyList {α : Type} : Option (List α) → Bool
  | none => false
  | some l => !l.isEmpty

/-- The callback's state after construction. -/
structure WandbCallback where
  log : Option String
  save_model : Bool
  monitor : String
  operator : CmpOp
  data_type : Option String
  best : Option EVal
  validation_data : Option (List Sample)
  model_path : String
deriving DecidableEq, Repr

/-- `WandbCallback.__init__`.  `run` is `wandb.run`; `sampler n k` models
`random.sample(range(n), k)` and is quantified over in the theorems together
with its documented contract (distinct in-range indices).  Mirrors the source:
raise `ValueError` when no run is active; resolve the operator through the
tracker base class; set `self.best = None`; when `data_type` is truthy and
`validation_data` is falsy, draw `min(predictions, len(valid_ds))` sample
indices and materialize the corresponding items. -/
def WandbCallback.init (run : Option Run) (learn : Learner)
    (log : Option String) (save_model : Bool) (monitor : String) (mode : Mode)
    (data_type : Option String) (validation_data : Option (List Sample))
    (predictions : Nat) (sampler : Nat → Nat → List Nat) :
    Except Err WandbCallback :=
  match run with
  | none =>
      .error (.preconditionError
        "You must call wandb.init() before WandbCallback()")
  | some r =>
      let operator := resolveOperator monitor mode
      let vd :=
        if pyTruthyStr data_type && !pyTruthyList validation_data then
          let n := learn.valid_ds.length
          let k := Nat.min predictions n
          let indices := sampler n k
          some (indices.map fun i => learn.valid_ds.getD i default)
        else
          validation_data
      .ok
        { log := log
          save_model := save_model
          monitor := monitor
          operator := operator
          data_type := data_type
          best := none
          validation_data := vd
          model_path := r.dir ++ "/bestmodel.pth" }

/-- Modelled from the spec: `TrackerCallback.on_train_begin` (fastai, not in
this repository's sources) sets `self.best` to `+infinity` when the operator
is `np.less` (min mode) and `-infinity` when it is `np.greater` (max mode). -/
def trackerOnTrainBegin (cb : WandbCallback) : WandbCallback :=
  { cb with
      best := some (match cb.operator with
        | .less => .pinf
        | .greater => .ninf) }

/-- `WandbCallback.on_train_begin`, acting on the callback together with the
process-wide class attribute `WandbCallback.watch_called`.  Returns the new
callback state, the new flag, and whether a `wandb.watch` request was issued
by this invocation. -/
def WandbCallback.on_train_begin (cb : WandbCallback) (watch_called : Bool) :
    WandbCallback × Bool × Bool :=
  let cb := trackerOnTrainBegin cb
  if watch_called then
    (cb, true, false)
  else
    (cb, true, true)

/-- Modelled from the spec: `TrackerCallback.get_monitor_value` (fastai, not
in this repository's sources) extracts the monitored metric's value for this
epoch, returning `None` when it is absent/undefined.  `epochValues` is the
name-to-value view of this epoch's metrics. -/
def get_monitor_value (cb : WandbCallback)
    (epochValues : List (String × ℚ)) : Option ℚ :=
  epochValues.lookup cb.monitor

/-- `self.operator(current, self.best)` where `self.best` may still be the
`None` set at construction (the training lifecycle guarantees
`on_train_begin` has replaced it before any epoch ends). -/
def cmpWithBest (op : CmpOp) (current : ℚ) : Option EVal → Bool
  | some b => op.apply (.fin current) b
  | none => false

/-- The record logged at epoch end:
`{name: stat for name, stat in list(zip(names, [epoch, smooth_loss] + last_metrics))[1:]}`
kept as the ordered association list produced by the comprehension. -/
def buildLogs (names : List String) (epoch : ℚ) (smooth_loss : ℚ)
    (last_metrics : List ℚ) : List (String × ℚ) :=
  (names.zip (epoch :: smooth_loss :: last_metrics)).drop 1

/-- One labeled prediction image: the input's visual representation with a
caption holding the ground-truth label and the predicted label. -/
structure PredImage where
  input : Nat
  groundTruth : Nat
  prediction : Nat
deriving DecidableEq, Repr

/-- The observable side effects of one `on_epoch_end` invocation. -/
structure EpochEffect where
  /-- whether a checkpoint write to `model_path` occurred -/
  saved : Bool
  /-- the "Better model found" notice: epoch, monitor name, value -/
  notice : Option (Nat × String × ℚ)
  /-- the "Prediction Samples" field, when emitted -/
  predEmitted : Option (List PredImage)
  /-- the metric record of the step -/
  logs : List (String × ℚ)
deriving Repr

/-- `WandbCallback.on_epoch_end`.  `fileExists` is whether the artifact file
already exists at `model_path`; the second component of the result is its
value afterwards.  Mirrors the source: the save branch runs only under
`save_model`, skipping silently when the monitored value is absent; the
prediction branch runs only when `validation_data` is truthy; the metric
record is always logged. -/
def WandbCallback.on_epoch_end (cb : WandbCallback) (learn : Learner)
    (epoch : Nat) (smooth_loss : ℚ) (last_metrics : List ℚ)
    (epochValues : List (String × ℚ)) (fileExists : Bool) :
    WandbCallback × Bool × EpochEffect :=
  let saveStep : WandbCallback × Bool × Bool × Option (Nat × String × ℚ) :=
    if cb.save_model then
      match get_monitor_value cb epochValues with
      | none => (cb, fileExists, false, none)
      | some current =>
          if cmpWithBest cb.operator current cb.best then
            ({ cb with best := some (.fin current) }, true, true,
              some (epoch, cb.monitor, current))
          else
            (cb, fileExists, false, none)
    else
      (cb, fileExists, false, none)
  let cb' := saveStep.1
  let fs' := saveStep.2.1
  let predEmitted : Option (List PredImage) :=
    match cb.validation_data with
    | none => none
    | some vd =>
        if vd.isEmpty then
          none
        else
          some (vd.filterMap fun s =>
            let pred := learn.predict s.x
            if pred.scalarShaped then
              some { input := s.x, groundTruth := s.y,
                     prediction := pred.label }
            else
              none)
  let logs := buildLogs learn.recorder_names (epoch : ℚ) smooth_loss
    last_metrics
  (cb', fs',
    { saved := saveStep.2.2.1
      notice := saveStep.2.2.2
      predEmitted := predEmitted
      logs := logs })

/-- The observable side effects of `on_train_end`. -/
structure TrainEndEffect where
  /-- whether the artifact was loaded back into the model -/
  loaded : Bool
  /-- the `purge` flag passed to `learn.load` when loading -/
  purgeRequested : Bool
  /-- the "Loaded best saved model from ..." notice, naming the path -/
  notice : Option String
deriving DecidableEq, Repr

/-- `WandbCallback.on_train_end`: when checkpointing is enabled and the
artifact file exists, load it back with `purge=False` and emit a notice
naming the path; otherwise do nothing. -/
def WandbCallback.on_train_end (cb : WandbCallback) (fileExists : Bool) :
    TrainEndEffect :=
  if cb.save_model && fileExists then
    { loaded := true, purgeRequested := false, notice := some cb.model_path }
  else
    { loaded := false, purgeRequested := false, notice := none }

/-- Process-level events touching the class attribute
`WandbCallback.watch_called`: constructing some observer, or invoking
`on_train_begin` on a particular observer instance. -/
inductive PEvent where
  | construct : PEvent
  | trainBegin : WandbCallback → PEvent

/-- Whether an event is an `on_train_begin` invocation. -/
def PEvent.isTrainBegin : PEvent → Bool
  | .construct => false
  | .trainBegin _ => true

/-- One process-level step: constructing an observer leaves the flag alone
(`__init__` never reads or writes `watch_called`); `on_train_begin` updates
the flag through the embedded method and counts whether a watch request was
issued. -/
def processStep : Bool × Nat → PEvent → Bool × Nat
  | (flag, n), .construct => (flag, n)
  | (flag, n), .trainBegin cb =>
      let r := cb.on_train_begin flag
      (r.2.1, n + (if r.2.2 then 1 else 0))

/-- Total number of `wandb.watch` requests issued over a sequence of
process-level events, starting from an unset flag and no requests. -/
def watchCount (evs : List PEvent) : Nat :=
  (evs.foldl processStep (false, 0)).2

/-! ### Concrete fixtures used to instantiate hypotheses -/

/-- A small concrete learner: three validation samples, the recorder names of
the spec's worked example, and a classifier-style predict function. -/
def demoLearner : Learner :=
  { valid_ds := [⟨0, 0⟩, ⟨1, 1⟩, ⟨2, 0⟩]
    recorder_names := ["epoch", "train_loss", "valid_loss", "accuracy"]
    predict := fun x => { label := x % 2, scalarShaped := true } }

/-- A deterministic stand-in for `random.sample(range(n), k)`: the first `k`
indices, which satisfy the sampler contract (distinct, in range). -/
def demoSampler : Nat → Nat → List Nat := fun _ k => List.range k

/-- The run used by the concrete instantiations. -/
def demoRun : Run := { dir := "run" }

/-- The callback state produced by constructing with `mode="min"`,
checkpointing off and sampling disabled on `demoLearner`. -/
def initMinDemo : Except Err WandbCallback :=
  WandbCallback.init (some demoRun) demoLearner none false "val_loss" Mode.min
    none none 32 demoSampler

/-- The first projection of `initMinDemo`'s `best` field, when construction
succeeded. -/
def bestAfterInit (e : Except Err WandbCallback) : Option (Option EVal) :=
  match e with
  | .ok cb => some cb.best
  | .error _ => none

/-- The callback record that `initMinDemo` constructs. -/
def initMinDemoCb : WandbCallback :=
  { log := none
    save_model := false
    monitor := "val_loss"
    operator := CmpOp.less
    data_type := none
    best := none
    validation_data := none
    model_path := "run" ++ "/bestmodel.pth" }

/-- The callback record produced by constructing on `demoLearner` with
`data_type="images"`, no explicit sample set, `predictions=2` and the
deterministic sampler: the two drawn samples are materialized. -/
def sampledCb : WandbCallback :=
  { log := none
    save_model := false
    monitor := "val_loss"
    operator := CmpOp.less
    data_type := some "images"
    best := none
    validation_data := some [⟨0, 0⟩, ⟨1, 1⟩]
    model_path := "run" ++ "/bestmodel.pth" }

/-- A concrete post-`on_train_begin` callback state with checkpointing
enabled, min-mode operator and `best = +infinity`. -/
def saveCb : WandbCallback :=
  { log := none
    save_model := true
    monitor := "val_loss"
    operator := .less
    data_type := none
    best := some EVal.pinf
    validation_data := none
    model_path := "run" ++ "/bestmodel.pth" }

/-- A concrete callback state with checkpointing disabled. -/
def noSaveCb : WandbCallback :=
  { saveCb with save_model := false }

/-- Construction with an explicit empty `validation_data` list while
`data_type` is set: the Python falsiness test treats the empty list like
`None`, so the default draw still runs. -/
def emptyVdInit : Except Err WandbCallback :=
  WandbCallback.init (some demoRun) demoLearner none false "val_loss"
    Mode.auto (some "images") (some []) 32 demoSampler

/-- The "Prediction Samples" emission of one `on_epoch_end` call on the
callback produced by `emptyVdInit` (when construction succeeded). -/
def predEmittedOf (e : Except Err WandbCallback) :
    Option (Option (List PredImage)) :=
  match e with
  | .ok cb => some ((cb.on_epoch_end demoLearner 0 0 [] [] false).2.2.predEmitted)
  | .error _ => none

/-! ### Helper lemmas -/

/-- `charStarts` decides the list-prefix relation. -/
theorem charStarts_iff (n h : List Char) :
    charStarts n h = true ↔ n <+: h := by
  induction n generalizing h with
  | nil => simp [charStarts]
  | cons a as ih =>
      cases h with
      | nil => simp [charStarts]
      | cons b bs => simp [charStarts, ih, List.cons_prefix_cons]

/-- `charSubstr` decides the contiguous-sublist relation. -/
theorem charSubstr_iff (n h : List Char) :
    charSubstr n h = true ↔ n <:+: h := by
  induction h with
  | nil => simp [charSubstr, List.isEmpty_iff]
  | cons b bs ih =>
      rw [charSubstr]
      simp only [Bool.or_eq_true, ih, charStarts_iff]
      exact List.infix_cons_iff.symm

/-- Indexing a zip indexes both lists. -/
theorem getElem?_zip_pair {α β : Type} (as : List α) (bs : List β) (i : Nat) :
    (as.zip bs)[i]? = as[i]?.bind fun a => bs[i]?.map fun b => (a, b) := by
  induction as generalizing bs i with
  | nil => simp
  | cons a as ih =>
      cases bs with
      | nil => simp
      | cons b bs =>
          cases i with
          | zero => simp
          | succ n => simpa using ih bs n

/-- Once the watch flag is set, further events issue no request and never
reset the flag. -/
theorem foldl_processStep_true (evs : List PEvent)
    (n : Nat) : evs.foldl processStep (true, n) = (true, n) := by
  induction evs with
  | nil => rfl
  | cons e t ih =>
      cases e with
      | construct => simpa [processStep] using ih
      | trainBegin cb =>
          simpa [processStep, WandbCallback.on_train_begin] using ih

/-- Starting from an unset flag, the request count rises by exactly one when
some `on_train_begin` occurs and by nothing otherwise. -/
theorem foldl_processStep_false (evs : List PEvent)
    (n : Nat) : (evs.foldl processStep (false, n)).2 =
      n + (if evs.any PEvent.isTrainBegin then 1 else 0) := by
  induction evs generalizing n with
  | nil => simp
  | cons e t ih =>
      cases e with
      | construct => simp [processStep, ih, PEvent.isTrainBegin]
      | trainBegin cb =>
          simp [processStep, WandbCallback.on_train_begin,
            foldl_processStep_true, PEvent.isTrainBegin]

/-! ### Claims -/

/-- C3: constructing the observer with no active run fails with the
precondition error (and never creates a run); with an active run,
construction succeeds without raising. -/
theorem C3_init_requires_active_run (learn : Learner) (log : Option String)
    (sm : Bool) (monitor : String) (mode : Mode) (dt : Option String)
    (vd : Option (List Sample)) (preds : Nat)
    (sampler : Nat → Nat → List Nat) :
    WandbCallback.init none learn log sm monitor mode dt vd preds sampler =
      .error (.preconditionError
        "You must call wandb.init() before WandbCallback()") ∧
    ∀ r : Run, ∃ cb, WandbCallback.init (some r) learn log sm monitor mode dt
      vd preds sampler = .ok cb := by
  exact ⟨rfl, fun r => ⟨_, rfl⟩⟩

/-- C5: over any sequence of constructions and `on_train_begin` calls in one
process, the watch request is issued exactly once if any `on_train_begin`
occurs and never otherwise — in particular at most once; the first
`on_train_begin` with the flag unset sets it and issues the request, and an
invocation with the flag set issues nothing. -/
theorem C5_watch_issued_at_most_once (cb cb' : WandbCallback)
    (evs : List PEvent) :
    watchCount evs = (if evs.any PEvent.isTrainBegin then 1 else 0) ∧
    watchCount evs ≤ 1 ∧
    (cb.on_train_begin false).2 = (true, true) ∧
    (cb.on_train_begin true).2 = (true, false) ∧
    watchCount [PEvent.construct, PEvent.trainBegin cb, PEvent.construct,
      PEvent.trainBegin cb'] = 1 := by
  have h : watchCount evs = (if evs.any PEvent.isTrainBegin then 1 else 0) := by
    simpa using foldl_processStep_false evs 0
  refine ⟨h, ?_, rfl, rfl, rfl⟩
  rw [h]
  split <;> simp

/-- C9: auto mode resolves to min (`np.less`) exactly when the monitored name
contains the substring "loss" or "error", else max (`np.greater`);
"val_loss" resolves to min and "accuracy" to max; explicit modes are used
directly. -/
theorem C9_mode_resolution (monitor : String) :
    (resolveOperator monitor Mode.auto = CmpOp.less ↔
      ("loss".toList <:+: monitor.toList ∨
        "error".toList <:+: monitor.toList)) ∧
    (resolveOperator monitor Mode.auto = CmpOp.greater ↔
      ¬("loss".toList <:+: monitor.toList ∨
        "error".toList <:+: monitor.toList)) ∧
    resolveOperator monitor Mode.min = CmpOp.less ∧
    resolveOperator monitor Mode.max = CmpOp.greater ∧
    resolveOperator "val_loss" Mode.auto = CmpOp.less ∧
    resolveOperator "accuracy" Mode.auto = CmpOp.greater := by
  have cond :
      (strContainsSub monitor "loss" || strContainsSub monitor "error")
          = true ↔
        ("loss".toList <:+: monitor.toList ∨
          "error".toList <:+: monitor.toList) := by
    simp [strContainsSub, charSubstr_iff]
  refine ⟨?_, ?_, rfl, rfl, by decide, by decide⟩
  · show (if strContainsSub monitor "loss" || strContainsSub monitor "error"
        then CmpOp.less else CmpOp.greater) = CmpOp.less ↔ _
    cases hb : strContainsSub monitor "loss" ||
        strContainsSub monitor "error" with
    | false =>
        rw [hb] at cond
        simp only [Bool.false_eq_true, false_iff] at cond
        simp [hb]
        simp at cond
        tauto
    | true =>
        rw [hb] at cond
        simp only [true_iff] at cond
        simp [hb]
        simp at cond
        tauto
  · show (if strContainsSub monitor "loss" || strContainsSub monitor "error"
        then CmpOp.less else CmpOp.greater) = CmpOp.greater ↔ _
    cases hb : strContainsSub monitor "loss" ||
        strContainsSub monitor "error" with
    | false =>
        rw [hb] at cond
        simp only [Bool.false_eq_true, false_iff] at cond
        simp [hb]
        simp at cond
        tauto
    | true =>
        rw [hb] at cond
        simp only [true_iff] at cond
        simp [hb]
        simp at cond
        tauto

/-- `on_epoch_end` never changes the stored sample set. -/
theorem on_epoch_end_validation_data (cb : WandbCallback) (learn : Learner)
    (epoch : Nat) (sl : ℚ) (lm : List ℚ) (ev : List (String × ℚ))
    (fe : Bool) :
    (cb.on_epoch_end learn epoch sl lm ev fe).1.validation_data =
      cb.validation_data := by
  cases hs : cb.save_model with
  | false => simp [WandbCallback.on_epoch_end, hs]
  | true =>
      cases hm : get_monitor_value cb ev with
      | none => simp [WandbCallback.on_epoch_end, hs, hm]
      | some c =>
          cases hc : cmpWithBest cb.operator c cb.best with
          | false => simp [WandbCallback.on_epoch_end, hs, hm, hc]
          | true => simp [WandbCallback.on_epoch_end, hs, hm, hc]

/-- The "Prediction Samples" field is emitted exactly when the stored sample
set is truthy in Python's sense. -/
theorem on_epoch_end_predEmitted (cb : WandbCallback) (learn : Learner)
    (epoch : Nat) (sl : ℚ) (lm : List ℚ) (ev : List (String × ℚ))
    (fe : Bool) :
    (cb.on_epoch_end learn epoch sl lm ev fe).2.2.predEmitted.isSome =
      pyTruthyList cb.validation_data := by
  cases hv : cb.validation_data with
  | none => simp [WandbCallback.on_epoch_end, hv, pyTruthyList]
  | some vd =>
      cases he : vd.isEmpty with
      | false => simp [WandbCallback.on_epoch_end, hv, he, pyTruthyList]
      | true => simp [WandbCallback.on_epoch_end, hv, he, pyTruthyList]

/-- C2 counterexample: at construction `best` is `None`, not the
mode-dependent infinity the claim states (here: min mode, yet
`best ≠ +infinity`). -/
theorem C2_counterexample :
    bestAfterInit initMinDemo = some none ∧
    bestAfterInit initMinDemo ≠ some (some EVal.pinf) := by
  exact ⟨rfl, by decide⟩

/-- C2 (amended): construction leaves `best` undefined (`None`); it is
`on_train_begin` that initializes (and on later calls resets) `best` to
`+infinity` for a min-mode operator and `-infinity` for a max-mode one. -/
theorem C2_best_initialization (run : Run) (learn : Learner)
    (log : Option String) (sm : Bool) (monitor : String) (mode : Mode)
    (dt : Option String) (vd : Option (List Sample)) (preds : Nat)
    (sampler : Nat → Nat → List Nat) (cb : WandbCallback) (flag : Bool)
    (h : WandbCallback.init (some run) learn log sm monitor mode dt vd preds
        sampler = .ok cb) :
    cb.best = none ∧
    ((cb.on_train_begin flag).1).best =
      some (match cb.operator with
        | CmpOp.less => EVal.pinf
        | CmpOp.greater => EVal.ninf) := by
  simp only [WandbCallback.init, Except.ok.injEq] at h
  subst h
  refine ⟨rfl, ?_⟩
  cases flag <;> rfl

/-- Witness for C2 (amended) at the concrete min-mode construction. -/
theorem C2_best_initialization_witness :
    initMinDemoCb.best = none ∧
    ((initMinDemoCb.on_train_begin false).1).best =
      some (match initMinDemoCb.operator with
        | CmpOp.less => EVal.pinf
        | CmpOp.greater => EVal.ninf) :=
  C2_best_initialization demoRun demoLearner none false "val_loss" Mode.min
    none none 32 demoSampler initMinDemoCb false rfl

/-- C4: the logged record pairs the recorder's names positionally with
`[epoch, smooth_loss] + last_metrics` and drops the first (epoch-counter)
entry; on the spec's worked example it is exactly
`{"train_loss": 0.25, "valid_loss": 0.3, "accuracy": 0.9}`. -/
theorem C4_metric_record (names : List String) (epoch smooth_loss : ℚ)
    (last_metrics : List ℚ) :
    (∀ i : Nat, (buildLogs names epoch smooth_loss last_metrics)[i]? =
      names[i + 1]?.bind fun nm =>
        ((epoch :: smooth_loss :: last_metrics)[i + 1]?).map
          fun v => (nm, v)) ∧
    buildLogs ["epoch", "train_loss", "valid_loss", "accuracy"] 2 (1 / 4)
        [3 / 10, 9 / 10] =
      [("train_loss", 1 / 4), ("valid_loss", 3 / 10), ("accuracy", 9 / 10)]
    := by
  constructor
  · intro i
    rw [buildLogs, List.getElem?_drop, Nat.add_comm 1 i]
    exact getElem?_zip_pair _ _ _
  · rfl

/-- C1: with checkpointing enabled and `best` defined, the epoch's checkpoint
write and `best` update happen exactly when the monitored value is present
and strictly better under the resolved operator; an absent monitored value
skips the save without error and changes nothing. -/
theorem C1_save_policy (cb : WandbCallback) (learn : Learner) (epoch : Nat)
    (sl : ℚ) (lm : List ℚ) (ev : List (String × ℚ)) (fe : Bool) (b : EVal)
    (hsave : cb.save_model = true) (hbest : cb.best = some b) :
    (((cb.on_epoch_end learn epoch sl lm ev fe).2.2.saved = true) ↔
      (∃ c, get_monitor_value cb ev = some c ∧
        cb.operator.apply (EVal.fin c) b = true)) ∧
    (∀ c, get_monitor_value cb ev = some c →
      cb.operator.apply (EVal.fin c) b = true →
      ((cb.on_epoch_end learn epoch sl lm ev fe).1.best =
          some (EVal.fin c) ∧
        (cb.on_epoch_end learn epoch sl lm ev fe).2.1 = true ∧
        (cb.on_epoch_end learn epoch sl lm ev fe).1.model_path =
          cb.model_path ∧
        (cb.on_epoch_end learn epoch sl lm ev fe).2.2.notice =
          some (epoch, cb.monitor, c))) ∧
    (∀ c, get_monitor_value cb ev = some c →
      cb.operator.apply (EVal.fin c) b = false →
      ((cb.on_epoch_end learn epoch sl lm ev fe).2.2.saved = false ∧
        (cb.on_epoch_end learn epoch sl lm ev fe).1.best = cb.best)) ∧
    (get_monitor_value cb ev = none →
      ((cb.on_epoch_end learn epoch sl lm ev fe).2.2.saved = false ∧
        (cb.on_epoch_end learn epoch sl lm ev fe).1 = cb ∧
        (cb.on_epoch_end learn epoch sl lm ev fe).2.1 = fe)) := by
  cases hm : get_monitor_value cb ev with
  | none => simp [WandbCallback.on_epoch_end, hsave, hm]
  | some c =>
      have hcb : cmpWithBest cb.operator c cb.best =
          cb.operator.apply (EVal.fin c) b := by
        rw [hbest]; rfl
      cases hop : cb.operator.apply (EVal.fin c) b with
      | false =>
          rw [hop] at hcb
          simp [WandbCallback.on_epoch_end, hsave, hm, hcb, hop]
      | true =>
          rw [hop] at hcb
          simp [WandbCallback.on_epoch_end, hsave, hm, hcb, hop]

/-- Witness for C1 at a concrete min-mode callback whose monitored value
`1/2` beats `best = +infinity`. -/
theorem C1_save_policy_witness :
    saveCb.save_model = true ∧ saveCb.best = some EVal.pinf ∧
    (saveCb.on_epoch_end demoLearner 0 (1 / 2) [] [("val_loss", 1 / 2)]
        false).2.2.saved = true ∧
    (saveCb.on_epoch_end demoLearner 0 (1 / 2) [] [("val_loss", 1 / 2)]
        false).1.best = some (EVal.fin (1 / 2)) := by
  have h := C1_save_policy saveCb demoLearner 0 (1 / 2) []
    [("val_loss", (1 / 2 : ℚ))] false EVal.pinf rfl rfl
  refine ⟨rfl, rfl, ?_, ?_⟩
  · exact h.1.mpr ⟨1 / 2, rfl, rfl⟩
  · exact (h.2.1 (1 / 2) rfl rfl).1

/-- C8: with checkpointing disabled, `on_epoch_end` performs no artifact
write, leaves the entire callback state (in particular `best`) unchanged,
and leaves the artifact file as it was. -/
theorem C8_disabled_checkpointing (cb : WandbCallback) (learn : Learner)
    (epoch : Nat) (sl : ℚ) (lm : List ℚ) (ev : List (String × ℚ)) (fe : Bool)
    (h : cb.save_model = false) :
    (cb.on_epoch_end learn epoch sl lm ev fe).2.2.saved = false ∧
    (cb.on_epoch_end learn epoch sl lm ev fe).1 = cb ∧
    (cb.on_epoch_end learn epoch sl lm ev fe).2.1 = fe := by
  simp [WandbCallback.on_epoch_end, h]

/-- Witness for C8 at a concrete callback with checkpointing disabled. -/
theorem C8_disabled_checkpointing_witness :
    (noSaveCb.on_epoch_end demoLearner 0 0 [] [] false).2.2.saved = false ∧
    (noSaveCb.on_epoch_end demoLearner 0 0 [] [] false).1 = noSaveCb ∧
    (noSaveCb.on_epoch_end demoLearner 0 0 [] [] false).2.1 = false :=
  C8_disabled_checkpointing noSaveCb demoLearner 0 0 [] [] false rfl

/-- C7: at `on_train_end` with checkpointing enabled, an existing artifact is
loaded back with `purge=False` and a notice naming the path is emitted; with
no artifact the call is a silent no-op. -/
theorem C7_train_end_restore (cb : WandbCallback)
    (h : cb.save_model = true) :
    cb.on_train_end true =
      { loaded := true, purgeRequested := false,
        notice := some cb.model_path } ∧
    cb.on_train_end false =
      { loaded := false, purgeRequested := false, notice := none } := by
  simp [WandbCallback.on_train_end, h]

/-- Witness for C7 at a concrete checkpointing-enabled callback. -/
theorem C7_train_end_restore_witness :
    saveCb.on_train_end true =
      { loaded := true, purgeRequested := false,
        notice := some saveCb.model_path } ∧
    saveCb.on_train_end false =
      { loaded := false, purgeRequested := false, notice := none } :=
  C7_train_end_restore saveCb rfl

/-- C6: with sampling enabled and no explicit sample set, construction
materializes exactly the `min(predictions, len(valid_ds))` items drawn by the
sampler (whose contract — distinct in-range indices, as `random.sample`
guarantees — is hypothesized), and no later `on_epoch_end` ever changes the
stored sample set. -/
theorem C6_sample_draw (run : Run) (learn : Learner) (log : Option String)
    (sm : Bool) (monitor : String) (mode : Mode) (dt : String) (preds : Nat)
    (sampler : Nat → Nat → List Nat) (cb : WandbCallback)
    (hdt : dt.isEmpty = false)
    (hlen : (sampler learn.valid_ds.length
        (Nat.min preds learn.valid_ds.length)).length =
      Nat.min preds learn.valid_ds.length)
    (hnodup : (sampler learn.valid_ds.length
        (Nat.min preds learn.valid_ds.length)).Nodup)
    (h : WandbCallback.init (some run) learn log sm monitor mode (some dt)
        none preds sampler = .ok cb) :
    cb.validation_data =
      some ((sampler learn.valid_ds.length
          (Nat.min preds learn.valid_ds.length)).map
        fun i => learn.valid_ds.getD i default) ∧
    (∃ l, cb.validation_data = some l ∧
      l.length = Nat.min preds learn.valid_ds.length) ∧
    (sampler learn.valid_ds.length
      (Nat.min preds learn.valid_ds.length)).Nodup ∧
    (∀ (learn' : Learner) (epoch : Nat) (sl : ℚ) (lm : List ℚ)
        (ev : List (String × ℚ)) (fe : Bool),
      (cb.on_epoch_end learn' epoch sl lm ev fe).1.validation_data =
        cb.validation_data) := by
  simp only [WandbCallback.init, pyTruthyStr, pyTruthyList, hdt,
    Bool.not_false, Bool.and_true, Except.ok.injEq] at h
  subst h
  refine ⟨rfl, ⟨_, rfl, ?_⟩, hnodup, ?_⟩
  · simpa using hlen
  · intro learn' epoch sl lm ev fe
    exact on_epoch_end_validation_data _ learn' epoch sl lm ev fe

/-- Witness for C6: `demoLearner` has three validation items, two are
requested, and the deterministic sampler returns `[0, 1]`. -/
theorem C6_sample_draw_witness :
    sampledCb.validation_data =
      some ((demoSampler demoLearner.valid_ds.length
          (Nat.min 2 demoLearner.valid_ds.length)).map
        fun i => demoLearner.valid_ds.getD i default) ∧
    (∃ l, sampledCb.validation_data = some l ∧
      l.length = Nat.min 2 demoLearner.valid_ds.length) ∧
    (demoSampler demoLearner.valid_ds.length
      (Nat.min 2 demoLearner.valid_ds.length)).Nodup ∧
    (∀ (learn' : Learner) (epoch : Nat) (sl : ℚ) (lm : List ℚ)
        (ev : List (String × ℚ)) (fe : Bool),
      (sampledCb.on_epoch_end learn' epoch sl lm ev fe).1.validation_data =
        sampledCb.validation_data) :=
  C6_sample_draw demoRun demoLearner none false "val_loss" Mode.min "images"
    2 demoSampler sampledCb rfl rfl (by decide) rfl

/-- C10 counterexample: an explicit empty `validation_data` list with
`data_type` set does not suppress prediction-sample emission — the Python
falsiness test triggers the default draw, and the epoch emits three
prediction images. -/
theorem C10_counterexample :
    predEmittedOf emptyVdInit =
      some (some [⟨0, 0, 0⟩, ⟨1, 1, 1⟩, ⟨2, 0, 0⟩]) ∧
    predEmittedOf emptyVdInit ≠ some none := by
  exact ⟨by decide, by decide⟩

/-- C10 (amended): the "Prediction Samples" field is emitted iff the stored
sample set is truthy (non-`None`, non-empty); disabling `data_type` with no
explicit set stores no sample set, suppressing emission; but an explicit
empty list is treated like an absent one and triggers the default draw when
`data_type` is set. -/
theorem C10_pred_emission :
    (∀ (cb : WandbCallback) (learn : Learner) (epoch : Nat) (sl : ℚ)
        (lm : List ℚ) (ev : List (String × ℚ)) (fe : Bool),
      (cb.on_epoch_end learn epoch sl lm ev fe).2.2.predEmitted.isSome =
        pyTruthyList cb.validation_data) ∧
    (∀ (run : Run) (learn : Learner) (log : Option String) (sm : Bool)
        (monitor : String) (mode : Mode) (preds : Nat)
        (sampler : Nat → Nat → List Nat) (cb : WandbCallback),
      WandbCallback.init (some run) learn log sm monitor mode none none preds
          sampler = .ok cb →
        cb.validation_data = none) ∧
    (∀ (run : Option Run) (learn : Learner) (log : Option String) (sm : Bool)
        (monitor : String) (mode : Mode) (dt : Option String) (preds : Nat)
        (sampler : Nat → Nat → List Nat),
      pyTruthyStr dt = true →
        WandbCallback.init run learn log sm monitor mode dt (some []) preds
            sampler =
          WandbCallback.init run learn log sm monitor mode dt none preds
            sampler) := by
  refine ⟨fun cb learn epoch sl lm ev fe =>
    on_epoch_end_predEmitted cb learn epoch sl lm ev fe, ?_, ?_⟩
  · intro run learn log sm monitor mode preds sampler cb h
    simp only [WandbCallback.init, pyTruthyStr, Bool.false_and,
      Except.ok.injEq] at h
    subst h
    rfl
  · intro run learn log sm monitor mode dt preds sampler hdt
    cases run with
    | none => rfl
    | some r => simp [WandbCallback.init, hdt, pyTruthyList]

/-- Witness for C10 (amended) at concrete inputs. -/
theorem C10_pred_emission_witness :
    ((noSaveCb.on_epoch_end demoLearner 0 0 [] [] false).2.2.predEmitted.isSome
        = pyTruthyList noSaveCb.validation_data) ∧
    initMinDemoCb.validation_data = none ∧
    WandbCallback.init (some demoRun) demoLearner none false "val_loss"
        Mode.min (some "images") (some []) 2 demoSampler =
      WandbCallback.init (some demoRun) demoLearner none false "val_loss"
        Mode.min (some "images") none 2 demoSampler := by
  have h := C10_pred_emission
  refine ⟨h.1 noSaveCb demoLearner 0 0 [] [] false, ?_, ?_⟩
  · exact h.2.1 demoRun demoLearner none false "val_loss" Mode.min 32
      demoSampler initMinDemoCb rfl
  · exact h.2.2 (some demoRun) demoLearner none false "val_loss" Mode.min
      (some "images") 2 demoSampler rfl

end WandbFastai
